import Mathlib

/-!
Verification development for the DeathStar space-combat game
(`src/js/main.js` together with the `EnvironmentManager` /
`CameraManager` modules).

Modelling conventions, used throughout:

* JavaScript numbers are modelled as exact rationals (`ℚ`).  Every
  constant of the source (`0.01`, `0.998`, `0.25`, `1.5`, …) is a
  rational, so the translation is exact for these values; IEEE-754
  rounding of the host is abstracted away.  `Math.PI * 2` is translated
  by the exact rational value of the double `Math.PI * 2`.
* Euclidean-distance comparisons (`a.distanceTo(b) < r`,
  `distanceTraveled >= maxDistance`) are represented by the equivalent
  comparisons of squared distances (`dist2 a b < r ^ 2`, …).  Every
  radius and range occurring in the program is nonnegative, and on
  nonnegatives `√x < r ↔ x < r²`, so the representation is faithful
  while keeping all definitions executable over `ℚ`.
* `Math.random()` draws are modelled by an oracle tape: the world
  carries `randRolls : List Bool`, one entry per evaluation of
  `Math.random() < 0.25` in `updateLasers` (an exhausted tape reads
  `false`).  The `normalize()` calls of the enemy AI
  (`EnvironmentManager.updateEnemies`) produce irrational unit vectors;
  the model takes these unit vectors, together with the random jitter,
  as per-fighter oracle inputs (`chase`, `jit`, `clampU`).
* Scene-graph, UI, camera, audio and other cosmetic effects (mesh
  rotations, tilt/pitch, the game-over fade/shake, colors of meshes)
  are outside the modelled state; explosion *spawns* are recorded
  (position, size, color) because they witness which code path ran,
  but particle aging is cosmetic and not modelled.
* The `setTimeout(() => invulnerable = false, 1000)` of the enemy-laser
  hit is modelled by a list `pendingGrace` of absolute expiry times
  (`now + 1`); a separate event fires a pending entry once the session
  clock has passed it, mirroring that browsers run the callback no
  earlier than its delay, between animation frames.
-/

/-- A 3-component vector of rationals, the model of `THREE.Vector3`. -/
structure Vec3 where
  x : ℚ
  y : ℚ
  z : ℚ
deriving Repr, DecidableEq

instance : Add Vec3 := ⟨fun a b => ⟨a.x + b.x, a.y + b.y, a.z + b.z⟩⟩

instance : Sub Vec3 := ⟨fun a b => ⟨a.x - b.x, a.y - b.y, a.z - b.z⟩⟩

instance : SMul ℚ Vec3 := ⟨fun c v => ⟨c * v.x, c * v.y, c * v.z⟩⟩

/-- Squared Euclidean norm of a vector. -/
def Vec3.normSq (v : Vec3) : ℚ := v.x ^ 2 + v.y ^ 2 + v.z ^ 2

/-- Squared Euclidean distance; the model of `a.distanceTo(b)` squared. -/
def dist2 (a b : Vec3) : ℚ := Vec3.normSq (a - b)

/-- The zero vector. -/
def vzero : Vec3 := ⟨0, 0, 0⟩

/- Constants of `shipState` (`main.js` lines 37-66). -/

/-- `shipState.maxSpeed`. -/
def maxSpeed : ℚ := 1

/-- `shipState.drag` (applied to the vertical velocity only). -/
def dragFactor : ℚ := 98 / 100

/-- `shipState.speedIncrement`. -/
def speedIncrement : ℚ := 1 / 100

/-- `shipState.maxForwardSpeed`. -/
def maxForwardSpeed : ℚ := 3 / 2

/-- `shipState.maxReverseSpeed`. -/
def maxReverseSpeed : ℚ := -3 / 10

/-- `shipState.barrelRoll.speed`: progress added per tick while rolling. -/
def rollSpeed : ℚ := 1 / 20

/-- `shipState.barrelRoll.duration = Math.PI * 2`, the exact rational value
of the IEEE-754 double `Math.PI * 2`. -/
def rollDuration : ℚ := 884279719003555 / 140737488355328

/-- `shipState.collisionRadius`. -/
def shipCollisionRadius : ℚ := 4

/-- `shipState.shootCooldown` (seconds between player shots). -/
def shootCooldown : ℚ := 1 / 4

/-- `shipState.laserSpeed` (player laser speed). -/
def laserSpeed : ℚ := 500

/-- `shipState.laserRange` (player laser maximum travel). -/
def laserRange : ℚ := 200

/-- `shipState.laserDamage` (player laser damage). -/
def laserDamage : ℚ := 25

/-- The barrel-roll sub-state of `shipState.barrelRoll`. -/
structure BarrelRoll where
  active : Bool
  direction : ℚ
  progress : ℚ
deriving Repr, DecidableEq

/-- The mutable part of `shipState` (`main.js` lines 37-66).  The constant
fields of the JS object (`maxSpeed`, `speedIncrement`, …) are the global
constants above; cosmetic mesh state (`xwing.rotation.z/x` tilt) is not
modelled. -/
structure ShipState where
  position : Vec3
  velocity : Vec3
  rotationY : ℚ
  currentSpeed : ℚ
  barrelRoll : BarrelRoll
  invulnerable : Bool
  health : ℚ
  lastShotTime : ℚ
deriving Repr, DecidableEq

/-- An entry of the `lasers` array (`fireLaser` / `createEnemyLaser`).
`position` is the laser mesh position; `isEnemy` is `false` for player
lasers (the JS object simply lacks the tag, which reads as falsy). -/
structure Laser where
  position : Vec3
  velocity : Vec3
  startPosition : Vec3
  maxDistance : ℚ
  damage : ℚ
  isEnemy : Bool
deriving Repr, DecidableEq

/-- An entry of `environmentManager.targets`: a TIE fighter
(`EnvironmentManager.createTieFighter`).  The cosmetic spin-rate vector
is not modelled. -/
structure Target where
  position : Vec3
  radius : ℚ
  health : ℚ
  velocity : Vec3
deriving Repr, DecidableEq

/-- An entry of `environmentManager.asteroids`.  `id` is the model of
mesh identity (used by `destroyAsteroid` to find the matching entry of
`collisionObjects`). -/
structure Asteroid where
  id : ℕ
  position : Vec3
  radius : ℚ
  velocity : Vec3
deriving Repr, DecidableEq

/-- The `type` tag of a collision object. -/
inductive CType where
  | asteroid
  | planet
  | deathstar
deriving Repr, DecidableEq

/-- An entry of `environmentManager.collisionObjects`.  `id` models mesh
identity (shared with the `Asteroid` of the same mesh). -/
structure Collidable where
  id : ℕ
  position : Vec3
  radius : ℚ
  ctype : CType
deriving Repr, DecidableEq

/-- The global `gameState` (`main.js` lines 69-73), plus the message
passed to `gameOver` (shown on the game-over screen). -/
structure GameState where
  isGameOver : Bool
  score : ℕ
  message : Option String
deriving Repr, DecidableEq

/-- The keyboard state read by `updateShipPhysics` (the `keys` object).
`q`/`e` act through the keydown handler (a separate event in the model)
and are not read per tick, so they are not fields here. -/
structure Keys where
  w : Bool
  a : Bool
  s : Bool
  d : Bool
  f : Bool
  space : Bool
  arrowUp : Bool
  arrowDown : Bool
  arrowLeft : Bool
  arrowRight : Bool
deriving Repr, DecidableEq

/-- A recorded explosion spawn: the arguments of a
`createExplosionEffect(position, size, color)` call.  Particle aging is
cosmetic and not modelled. -/
structure Explosion where
  position : Vec3
  size : ℚ
  color : ℕ
deriving Repr, DecidableEq

/-- The whole simulation state: ship state, game state, the entity
registry lists, the pending post-hit invulnerability timeouts, the
session clock (`clock.getElapsedTime()`) and the random tape for the
asteroid destroy rolls. -/
structure World where
  ship : ShipState
  game : GameState
  lasers : List Laser
  targets : List Target
  asteroids : List Asteroid
  collisionObjects : List Collidable
  explosions : List Explosion
  pendingGrace : List ℚ
  now : ℚ
  randRolls : List Bool
deriving Repr, DecidableEq

/-- JavaScript `array.splice(i, 1)`: remove the element at index `i`
(no-op when `i` is out of range). -/
def spliceAt {α : Type} (i : ℕ) (l : List α) : List α :=
  l.take i ++ l.drop (i + 1)

/-- Index of the first element satisfying `p` (a `for` loop running
upward that breaks on the first match). -/
def findFirstIdx {α : Type} (p : α → Bool) : List α → Option ℕ
  | [] => none
  | a :: l => if p a then some 0 else (findFirstIdx p l).map (· + 1)

/-- Index of the last element satisfying `p` (a `for` loop running
downward from the end that breaks on the first match). -/
def findLastIdx {α : Type} (p : α → Bool) : List α → Option ℕ
  | [] => none
  | a :: l =>
    match findLastIdx p l with
    | some j => some (j + 1)
    | none => if p a then some 0 else none

/-- `gameOver(message)` (`main.js` lines 824-880): mark the game over and
record the message.  The fade-in, camera shake, final explosion and ship
hiding are UI/cosmetic effects (all guarded by `uiElements`) and are not
modelled. -/
def gameOver (msg : String) (w : World) : World :=
  { w with game := { w.game with isGameOver := true, message := some msg } }

/-- `handleCollision(object)` (`main.js` lines 933-952): dispatch on the
collidable kind.  Asteroid and planet collisions zero the ship health and
end the game; reaching the Death Star ends the game with the success
message (health untouched). -/
def handleCollision (o : Collidable) (w : World) : World :=
  match o.ctype with
  | CType.asteroid =>
    gameOver "Your X-Wing was destroyed by an asteroid!"
      { w with ship := { w.ship with health := 0 } }
  | CType.planet =>
    gameOver "Your X-Wing crashed into a planet!"
      { w with ship := { w.ship with health := 0 } }
  | CType.deathstar =>
    gameOver "Mission Complete! You\x27ve reached the Death Star!" w

/-- `checkCollisions()` (`main.js` lines 912-930): no-op while
invulnerable; otherwise test the ship against `collisionObjects` in list
order and resolve only the first collision
(`distance < collisionRadius + radius`, squared form). -/
def checkCollisions (w : World) : World :=
  if w.ship.invulnerable then w
  else
    match findFirstIdx
        (fun o =>
          decide (dist2 w.ship.position o.position <
            (shipCollisionRadius + o.radius) ^ 2))
        w.collisionObjects with
    | none => w
    | some j =>
      match w.collisionObjects[j]? with
      | none => w
      | some o => handleCollision o w

/-- The laser pushed by `fireLaser` (`main.js` lines 352-360): spawned at
the nose position, with velocity `forwardDir * laserSpeed`; the `isEnemy`
tag is absent on player lasers (falsy), here `false`. -/
def mkPlayerLaser (nose fdir : Vec3) : Laser :=
  { position := nose
    velocity := laserSpeed • fdir
    startPosition := nose
    maxDistance := laserRange
    damage := laserDamage
    isEnemy := false }

/-- `fireLaser()` (`main.js` lines 308-363).  Rejected (complete no-op)
while `currentTime - lastShotTime < shootCooldown`; otherwise update
`lastShotTime` to the session clock and append one laser.  The nose
position and the unit forward direction are computed from the mesh
quaternion in the source and are inputs here. -/
def fireLaser (nose fdir : Vec3) (w : World) : World :=
  if w.now - w.ship.lastShotTime < shootCooldown then w
  else
    { w with
      ship := { w.ship with lastShotTime := w.now }
      lasers := w.lasers ++ [mkPlayerLaser nose fdir] }

/-- `createEnemyLaser(target)` (`main.js` lines 633-671): an enemy laser
spawned at the firing fighter, aimed at the player.  `u` is the unit
direction toward the player (`(ship - target).normalize()` in the
source), an input since exact normalization is irrational.  Enemy lasers
have speed `1.5`, range `5`, damage `10` and the `isEnemy` tag. -/
def createEnemyLaser (origin u : Vec3) (w : World) : World :=
  { w with
    lasers := w.lasers ++
      [{ position := origin
         velocity := (3 / 2 : ℚ) • u
         startPosition := origin
         maxDistance := 5
         damage := 10
         isEnemy := true }] }

/-- `startBarrelRoll(direction)` (`main.js` lines 955-962): activate the
roll, reset progress, grant invulnerability. -/
def startBarrelRoll (dir : ℚ) (w : World) : World :=
  { w with
    ship := { w.ship with
      barrelRoll := { active := true, direction := dir, progress := 0 }
      invulnerable := true } }

/-- `updateBarrelRoll(deltaTime)` (`main.js` lines 965-985): while
rolling, add `rollSpeed` to the progress each tick (the `deltaTime`
argument is unused in the source); at `progress >= duration` deactivate,
reset progress and clear invulnerability.  The roll rotation applied to
the mesh is cosmetic. -/
def updateBarrelRoll (w : World) : World :=
  if w.ship.barrelRoll.active then
    let prog := w.ship.barrelRoll.progress + rollSpeed
    if rollDuration ≤ prog then
      { w with ship := { w.ship with
          barrelRoll := { w.ship.barrelRoll with active := false, progress := 0 }
          invulnerable := false } }
    else
      { w with ship := { w.ship with
          barrelRoll := { w.ship.barrelRoll with progress := prog } } }
  else w

/-- The enemy-laser block of `updateShipPhysics` (`main.js` lines
784-820): skipped entirely while invulnerable; otherwise scan `lasers`
from the end, skip player lasers, and resolve the first enemy laser
within `collisionRadius` of the ship: subtract its damage, remove it,
record an explosion, set invulnerability with a 1-second timeout
(`pendingGrace` entry `now + 1`), and end the game if health drops to 0
or below. -/
def shipLaserPhase (w : World) : World :=
  if w.ship.invulnerable then w
  else
    match findLastIdx
        (fun l =>
          l.isEnemy &&
            decide (dist2 l.position w.ship.position < shipCollisionRadius ^ 2))
        w.lasers with
    | none => w
    | some j =>
      match w.lasers[j]? with
      | none => w
      | some l =>
        let ship1 := { w.ship with
          health := w.ship.health - l.damage
          invulnerable := true }
        let w1 := { w with
          ship := ship1
          lasers := spliceAt j w.lasers
          explosions := w.explosions ++ [(⟨w.ship.position, 1, 0xff0000⟩ : Explosion)]
          pendingGrace := w.pendingGrace ++ [w.now + 1] }
        if ship1.health ≤ 0 then gameOver "Ship destroyed by enemy fire!" w1
        else w1

/-- The `currentSpeed` update of `updateShipPhysics` (`main.js` lines
686-708): thrust keys add or subtract `speedIncrement` with clamping;
with no thrust key held, speeds below `0.01` in magnitude snap to zero
and others decay by the factor `0.998`. -/
def speedStep (k : Keys) (cur : ℚ) : ℚ :=
  let cur1 :=
    if k.w || k.arrowUp then min (cur + speedIncrement) maxForwardSpeed
    else if k.s || k.arrowDown then max (cur - speedIncrement) maxReverseSpeed
    else cur
  if !k.w && !k.s && !k.arrowUp && !k.arrowDown then
    if |cur1| < 1 / 100 then 0 else cur1 * (998 / 1000)
  else cur1

/-- The flight-physics part of `updateShipPhysics(deltaTime)` (`main.js`
lines 674-781), followed by the calls it makes: speed update, yaw turn
(suppressed while rolling), vertical thrust/gravity, horizontal velocity
recomputed from the horizontal forward vector times `currentSpeed`,
vertical drag and clamp, position update, continuous fire on `f`,
`updateBarrelRoll`, `checkCollisions`, and the enemy-laser block.  `hf`
is the normalized horizontal forward vector and `nose`/`fdir` the laser
spawn data, all computed from the mesh quaternion in the source and
inputs here; `deltaTime` is unused by the source for these per-tick
constants.  Mesh tilt/pitch and the speed display are cosmetic. -/
def tickPhysics (k : Keys) (hf nose fdir : Vec3) (w : World) : World :=
  let sp := speedStep k w.ship.currentSpeed
  let rotY :=
    if !w.ship.barrelRoll.active then
      w.ship.rotationY + (if k.a || k.arrowLeft then (1 : ℚ) / 50 else 0)
        - (if k.d || k.arrowRight then (1 : ℚ) / 50 else 0)
    else w.ship.rotationY
  let vy0 :=
    if k.space then w.ship.velocity.y + 1 / 100 else w.ship.velocity.y - 1 / 500
  let vy1 := vy0 * dragFactor
  let vy2 :=
    if maxSpeed * (1 / 2) < |vy1| then
      (if 0 < vy1 then (1 : ℚ) else if vy1 < 0 then -1 else 0) * (maxSpeed * (1 / 2))
    else vy1
  let vel : Vec3 := ⟨hf.x * sp, vy2, hf.z * sp⟩
  let w1 := { w with ship := { w.ship with
      currentSpeed := sp
      rotationY := rotY
      velocity := vel
      position := w.ship.position + vel } }
  let w2 := if k.f then fireLaser nose fdir w1 else w1
  shipLaserPhase (checkCollisions (updateBarrelRoll w2))

/-- `destroyAsteroid(asteroidIndex)`'s collision-list half
(`EnvironmentManager` part): find the collision object with the same
mesh (`id`) and splice it out. -/
def removeFirstById (a : ℕ) (l : List Collidable) : List Collidable :=
  match findFirstIdx (fun c => c.id == a) l with
  | none => l
  | some j => spliceAt j l

/-- The target block of one `updateLasers` iteration (`main.js` lines
387-431): scan `targets` from the end; on the first one within its
radius of the laser, subtract the damage, record an explosion at the
laser, splice the laser out of `lasers` at index `i`, and if the target
health dropped to 0 or below, record a larger explosion, splice the
target out (`destroyTarget`) and add 100 to the score.  The loop then
breaks. -/
def laserTargetPhase (laser : Laser) (i : ℕ) (w : World) : World :=
  match findLastIdx
      (fun t => decide (dist2 laser.position t.position < t.radius ^ 2))
      w.targets with
  | none => w
  | some j =>
    match w.targets[j]? with
    | none => w
    | some t =>
      let t' := { t with health := t.health - laser.damage }
      let w' := { w with
        targets := w.targets.set j t'
        explosions := w.explosions ++ [(⟨laser.position, 1 / 2, 0xff0000⟩ : Explosion)]
        lasers := spliceAt i w.lasers }
      if t'.health ≤ 0 then
        { w' with
          targets := spliceAt j w'.targets
          explosions := w'.explosions ++ [(⟨t.position, 2, 0xffaa00⟩ : Explosion)]
          game := { w'.game with score := w'.game.score + 100 } }
      else w'

/-- The asteroid block of one `updateLasers` iteration (`main.js` lines
433-469): scan `asteroids` from the start; on the first one within its
radius of the laser, record an explosion at the laser, splice the laser
out of `lasers` at index `i` (again — the laser may already have been
removed by the target block, in which case this removes whatever now
sits at index `i`), consume one `Math.random() < 0.25` roll, and on a
successful roll record the asteroid explosion, run `destroyAsteroid`
(splice the asteroid and its collision object) and add 25 to the
score. -/
def laserAsteroidPhase (laser : Laser) (i : ℕ) (w : World) : World :=
  match findFirstIdx
      (fun a => decide (dist2 laser.position a.position < a.radius ^ 2))
      w.asteroids with
  | none => w
  | some j =>
    match w.asteroids[j]? with
    | none => w
    | some a =>
      let w1 := { w with
        explosions := w.explosions ++ [(⟨laser.position, 1 / 2, 0xaaaaaa⟩ : Explosion)]
        lasers := spliceAt i w.lasers }
      let b := w1.randRolls.headD false
      let w2 := { w1 with randRolls := w1.randRolls.tail }
      if b then
        { w2 with
          explosions := w2.explosions ++ [(⟨a.position, a.radius, 0xaaaaaa⟩ : Explosion)]
          asteroids := spliceAt j w2.asteroids
          collisionObjects := removeFirstById a.id w2.collisionObjects
          game := { w2.game with score := w2.game.score + 25 } }
      else w2

/-- One iteration of the `updateLasers` loop (`main.js` lines 368-470)
at array index `i`: advance the laser by `velocity * deltaTime`; if it
has now travelled at least `maxDistance` from its start, splice it out
and continue to the next index; otherwise run the target block and then
(unconditionally — the source `break` only leaves the inner loop) the
asteroid block. -/
def stepLaserAt (dt : ℚ) (w : World) (i : ℕ) : World :=
  match w.lasers[i]? with
  | none => w
  | some laser =>
    let laser' := { laser with position := laser.position + dt • laser.velocity }
    let w1 := { w with lasers := w.lasers.set i laser' }
    if laser'.maxDistance ^ 2 ≤ dist2 laser'.position laser'.startPosition then
      { w1 with lasers := spliceAt i w1.lasers }
    else
      laserAsteroidPhase laser' i (laserTargetPhase laser' i w1)

/-- The `updateLasers` loop: indices `n-1, n-2, …, 0` in this order
(the source iterates `i` from `lasers.length - 1` down to `0`,
re-splicing in place). -/
def updateLasersLoop (dt : ℚ) : ℕ → World → World
  | 0, w => w
  | n + 1, w => updateLasersLoop dt n (stepLaserAt dt w n)

/-- `updateLasers(deltaTime)` (`main.js` lines 366-471). -/
def updateLasers (dt : ℚ) (w : World) : World :=
  updateLasersLoop dt w.lasers.length w

/-- One fighter update of `EnvironmentManager.updateEnemies` (part_004
lines 569-619): move by the per-tick velocity, chase the player when
closer than 200 (lerp the velocity by 0.01 toward a capped attraction
vector plus jitter), clamp the speed to 0.2, and reflect velocity
components at the world bounds.  `chase` is the unit vector toward the
player (`normalize()` in the source), `jit` the random jitter vector and
`clampU` the unit vector of the velocity used by the clamp, all oracle
inputs; the mesh spin is cosmetic. -/
def stepEnemy (dt : ℚ) (chase jit clampU : Vec3) (ship : ShipState)
    (t : Target) : Target :=
  let p1 := t.position + t.velocity
  let v1 :=
    if dist2 p1 ship.position < 200 ^ 2 then
      let toPlayer := ((15 / 100 : ℚ) * dt * 60) • chase + jit
      t.velocity + (1 / 100 : ℚ) • (toPlayer - t.velocity)
    else t.velocity
  let v2 := if (1 / 25 : ℚ) < v1.normSq then (1 / 5 : ℚ) • clampU else v1
  let v3 : Vec3 :=
    ⟨if 500 < |p1.x| then -v2.x else v2.x,
     if 300 < |p1.y| then -v2.y else v2.y,
     if p1.z < -1500 || 500 < p1.z then -v2.z else v2.z⟩
  { t with position := p1, velocity := v3 }

/-- `environmentManager.updateEnemies(deltaTime, shipState)` (part_004
lines 569-619): update every fighter in index order.  Unlike the unused
legacy `updateEnemies` of `main.js`, this one never fires. -/
def updateEnemies (dt : ℚ) (chase jit clampU : ℕ → Vec3) (w : World) : World :=
  { w with
    targets := w.targets.mapIdx
      (fun i t => stepEnemy dt (chase i) (jit i) (clampU i) w.ship t) }

/-- One `animate()` frame (`main.js` lines 883-909): advance the session
clock by `deltaTime` (`clock.getDelta()`), return immediately if the
game is over, and otherwise run `updateShipPhysics`, the environment
manager's `updateEnemies`, and `updateLasers` in that order.  Starfield
/ planet-rotation / camera / renderer work and explosion aging are
cosmetic and outside the modelled core. -/
def animateTick (dt : ℚ) (k : Keys) (hf nose fdir : Vec3)
    (chase jit clampU : ℕ → Vec3) (w : World) : World :=
  let w0 := { w with now := w.now + dt }
  if w0.game.isGameOver then w0
  else
    updateLasers dt
      (updateEnemies dt chase jit clampU (tickPhysics k hf nose fdir w0))

/-- The arguments of one `animate()` frame, for iterating ticks. -/
structure TickIn where
  dt : ℚ
  k : Keys
  hf : Vec3
  nose : Vec3
  fdir : Vec3
  chase : ℕ → Vec3
  jit : ℕ → Vec3
  clampU : ℕ → Vec3

/-- A sequence of `animate()` frames. -/
def runTicks (w : World) (tis : List TickIn) : World :=
  tis.foldl
    (fun w ti => animateTick ti.dt ti.k ti.hf ti.nose ti.fdir ti.chase ti.jit ti.clampU w)
    w

/-- The events that can touch the simulation state between or during
frames: an `animate()` frame; the `q`/`e` keydown starting a barrel roll
(guarded by `!barrelRoll.active`, `main.js` lines 273-276); the `f`
keydown firing (`main.js` lines 279-281); the expiry of a pending
1-second post-hit invulnerability timeout; and an enemy laser spawn
(`createEnemyLaser` — its legacy caller is not wired into `animate()`; the
event models the enemy-fire architecture the surrounding code
implements). -/
inductive Ev where
  | tick (dt : ℚ) (k : Keys) (hf nose fdir : Vec3) (chase jit clampU : ℕ → Vec3)
  | keyRoll (dir : ℚ)
  | keyFire (nose fdir : Vec3)
  | graceFire (i : ℕ)
  | enemyFire (origin u : Vec3)

/-- The effect of one event. -/
def stepEv (w : World) : Ev → World
  | Ev.tick dt k hf nose fdir chase jit clampU =>
    animateTick dt k hf nose fdir chase jit clampU w
  | Ev.keyRoll dir =>
    if w.ship.barrelRoll.active then w else startBarrelRoll dir w
  | Ev.keyFire nose fdir => fireLaser nose fdir w
  | Ev.graceFire i =>
    match w.pendingGrace[i]? with
    | none => w
    | some texp =>
      if texp ≤ w.now then
        { w with
          pendingGrace := spliceAt i w.pendingGrace
          ship := { w.ship with invulnerable := false } }
      else w
  | Ev.enemyFire origin u => createEnemyLaser origin u w

/-- Run a sequence of events. -/
def runEv (w : World) (evs : List Ev) : World := evs.foldl stepEv w

/-- The initial `shipState` (`main.js` lines 37-66 and 256): at the
origin, at rest, healthy, vulnerable, roll inactive. -/
def initShip : ShipState :=
  { position := vzero
    velocity := vzero
    rotationY := 0
    currentSpeed := 0
    barrelRoll := { active := false, direction := 1, progress := 0 }
    invulnerable := false
    health := 100
    lastShotTime := 0 }

/-- The world right after `init()`: initial ship and game state, no
lasers, no explosions, no pending timeouts, clock at zero; the
randomly-generated level content (collision objects, fighters,
asteroids) and the random tape are parameters. -/
def initWorld (cobjs : List Collidable) (ts : List Target)
    (asts : List Asteroid) (tape : List Bool) : World :=
  { ship := initShip
    game := { isGameOver := false, score := 0, message := none }
    lasers := []
    targets := ts
    asteroids := asts
    collisionObjects := cobjs
    explosions := []
    pendingGrace := []
    now := 0
    randRolls := tape }

/-- `EnvironmentManager.createTieFighter(x, y, z)` (part_004 lines
396-556): append a fighter with collision radius 8 and health 50 to
`targets`.  The velocity is randomly drawn in the source and is a
parameter here; the mesh and spin rates are cosmetic.  Note that nothing
is added to `collisionObjects`. -/
def createTieFighter (x y z : ℚ) (v : Vec3) (w : World) : World :=
  { w with targets := w.targets ++ [{ position := ⟨x, y, z⟩, radius := 8, health := 50, velocity := v }] }

/-- Total `deltaTime` of a tick sequence. -/
def sumDt (tis : List TickIn) : ℚ := (tis.map TickIn.dt).sum

/-- A laser with its ownership tag erased (set to the player value
`false`); used to state that `updateLasers` never consults the tag. -/
def stripLaser (l : Laser) : Laser := { l with isEnemy := false }

/-- A world whose lasers all have the ownership tag erased. -/
def stripWorld (w : World) : World :=
  { w with lasers := w.lasers.map stripLaser }

/-- The direction of the invulnerability invariant that the code
maintains: whenever `invulnerable` is set, a barrel roll is active or a
post-hit grace timeout is pending. -/
def invGuard (w : World) : Prop :=
  w.ship.invulnerable = true →
    (w.ship.barrelRoll.active = true ∨ w.pendingGrace ≠ [])

/- Concrete instances used by witnesses and counterexamples. -/

/-- No key held. -/
def noKeys : Keys :=
  { w := false, a := false, s := false, d := false, f := false, space := false
    arrowUp := false, arrowDown := false, arrowLeft := false, arrowRight := false }

/-- The constant zero-vector oracle. -/
def ozv : ℕ → Vec3 := fun _ => vzero

/-- The forward direction used in concrete runs. -/
def dirZ : Vec3 := ⟨0, 0, -1⟩

/-- A fighter 300 units from the origin (outside the 200-unit chase
radius), drifting at `0.1` per tick in `z`. -/
def c1F : Target :=
  { position := ⟨300, 0, 0⟩, radius := 8, health := 50, velocity := ⟨0, 0, 1 / 10⟩ }

/-- A world whose only collidable is an asteroid of radius 2 at distance
3 from the ship — overlapping it — plus the far fighter `c1F`. -/
def c1W : World := initWorld [⟨5, ⟨0, 0, 3⟩, 2, CType.asteroid⟩] [c1F] [] []

/-- The state reached in the middle of the `animate()` frame on `c1W`,
right after `updateShipPhysics` (which runs `checkCollisions` and ends
the game) and before the same frame invokes the enemy AI. -/
def c1Mid : World :=
  tickPhysics noKeys dirZ vzero dirZ { c1W with now := c1W.now + 1 / 60 }

/-- An already-over world with empty entity lists. -/
def c1OverW : World :=
  { initWorld [] [] [] [] with
    game := { isGameOver := true, score := 0, message := none } }

/-- A no-input tick. -/
def c1Ti : TickIn :=
  { dt := 1 / 60, k := noKeys, hf := dirZ, nose := vzero, fdir := dirZ
    chase := ozv, jit := ozv, clampU := ozv }

/-- A player laser that, advanced by `deltaTime = 1/500`, sits within
both the fighter `c2F`'s radius and the asteroid `c2A`'s radius. -/
def c2L0 : Laser :=
  { position := ⟨0, 0, -4⟩, velocity := ⟨0, 0, -500⟩, startPosition := vzero
    maxDistance := 200, damage := 25, isEnemy := false }

/-- A second player laser far from every entity (at `x = 1000`). -/
def c2L1 : Laser :=
  { position := ⟨1000, 0, 0⟩, velocity := ⟨0, 0, -500⟩, startPosition := ⟨1000, 0, 0⟩
    maxDistance := 200, damage := 25, isEnemy := false }

/-- A fighter with health 50 at `(0,0,-10)`. -/
def c2F : Target :=
  { position := ⟨0, 0, -10⟩, radius := 8, health := 50, velocity := vzero }

/-- An asteroid of radius 3 at `(0,0,-6)`. -/
def c2A : Asteroid := { id := 0, position := ⟨0, 0, -6⟩, radius := 3, velocity := vzero }

/-- The world for the double-removal run: lasers `[c2L0, c2L1]`, the
fighter `c2F`, the asteroid `c2A`, and a failing destroy roll on the
tape. -/
def c2W : World :=
  { initWorld [⟨0, ⟨0, 0, -6⟩, 3, CType.asteroid⟩] [c2F] [c2A] [false] with
    lasers := [c2L0, c2L1] }

/-- An enemy-owned laser (from `createEnemyLaser`: range 5, damage 10)
that, advanced by one second, sits within the fighter `c2F`'s radius. -/
def c3E : Laser :=
  { position := ⟨0, 0, -6⟩, velocity := ⟨0, 0, -3 / 2⟩, startPosition := ⟨0, 0, -6⟩
    maxDistance := 5, damage := 10, isEnemy := true }

/-- The world holding only the enemy laser `c3E` and the fighter `c2F`. -/
def c3W : World := { initWorld [] [c2F] [] [] with lasers := [c3E] }

/-- A world whose only laser is player-owned and sits exactly at the
ship's position. -/
def c3PW : World :=
  { initWorld [] [] [] [] with
    lasers := [{ position := vzero, velocity := vzero, startPosition := vzero
                 maxDistance := 200, damage := 25, isEnemy := false }] }

/-- An invulnerable ship with an enemy laser at its position and an
overlapping asteroid collidable. -/
def c4W : World :=
  { initWorld [⟨0, vzero, 5, CType.asteroid⟩] [] [] [] with
    ship := { initShip with invulnerable := true }
    lasers := [{ position := vzero, velocity := vzero, startPosition := vzero
                 maxDistance := 5, damage := 10, isEnemy := true }] }

/-- The event trace for the invulnerability interleaving: an enemy laser
spawns at the ship; a frame resolves the hit (starting the 1-second
grace timeout); `q`/`e` starts a barrel roll; a long frame advances the
clock past the timeout while the roll is still in progress; the pending
timeout fires. -/
def c5evs : List Ev :=
  [Ev.enemyFire vzero dirZ,
   Ev.tick (1 / 60) noKeys dirZ vzero dirZ ozv ozv ozv,
   Ev.keyRoll 1,
   Ev.tick 2 noKeys dirZ vzero dirZ ozv ozv ozv,
   Ev.graceFire 0]

/-- The state after the whole trace `c5evs`. -/
def c5S : World := runEv (initWorld [] [] [] []) c5evs

/-- The state after only the hit (the first two events of `c5evs`). -/
def c5Hit : World := runEv (initWorld [] [] [] []) (c5evs.take 2)

/-- A fresh world with the session clock at `0.1` seconds and
`lastShotTime = 0`. -/
def c6W : World := { initWorld [] [] [] [] with now := 1 / 10 }

/-- A just-fired player laser (position at its start) aimed along `-z`. -/
def c8L : Laser :=
  { position := vzero, velocity := ⟨0, 0, -500⟩, startPosition := vzero
    maxDistance := 200, damage := 25, isEnemy := false }

/-- A fighter sitting exactly at the laser's range-expiry point
`(0,0,-200)`. -/
def c8T : Target :=
  { position := ⟨0, 0, -200⟩, radius := 8, health := 50, velocity := vzero }

/-- The world for the range-expiry tie-break: the laser `c8L` and the
coincident fighter `c8T`. -/
def c8W : World := { initWorld [] [c8T] [] [] with lasers := [c8L] }

/-- An asteroid collidable of radius 2 at distance 3 from the ship. -/
def c9O : Collidable := ⟨0, ⟨0, 0, 3⟩, 2, CType.asteroid⟩

/-- The world for the asteroid-collision scenario. -/
def c9W : World := initWorld [c9O] [] [] []

/-- A predicate false on every element finds no first index. -/
theorem findFirstIdx_eq_none {α : Type} (p : α → Bool) (l : List α)
    (h : ∀ a ∈ l, p a = false) : findFirstIdx p l = none := by
  induction l with
  | nil => rfl
  | cons a l ih =>
    have ha := h a (List.mem_cons_self a l)
    have ih' := ih (fun x hx => h x (List.mem_cons_of_mem a hx))
    simp [findFirstIdx, ha, ih']

/-- A predicate false on every element finds no last index. -/
theorem findLastIdx_eq_none {α : Type} (p : α → Bool) (l : List α)
    (h : ∀ a ∈ l, p a = false) : findLastIdx p l = none := by
  induction l with
  | nil => rfl
  | cons a l ih =>
    have ha := h a (List.mem_cons_self a l)
    have ih' := ih (fun x hx => h x (List.mem_cons_of_mem a hx))
    simp [findLastIdx, ha, ih']

/-- Setting the element a splice removes leaves the splice unchanged. -/
theorem take_set_self {α : Type} (a : α) :
    ∀ (i : ℕ) (l : List α), (l.set i a).take i = l.take i
  | _, [] => by simp
  | 0, _ :: _ => by simp
  | i + 1, b :: l => by
    simp only [List.set_cons_succ, List.take_succ_cons]
    rw [take_set_self a i l]

/-- `splice(i, 1)` after writing index `i` equals the plain splice. -/
theorem spliceAt_set {α : Type} (i : ℕ) (a : α) (l : List α) :
    spliceAt i (l.set i a) = spliceAt i l := by
  simp [spliceAt, take_set_self, List.drop_set]

/-- `splice(i, 1)` commutes with `map`. -/
theorem spliceAt_map {α β : Type} (f : α → β) (i : ℕ) (l : List α) :
    spliceAt i (l.map f) = (spliceAt i l).map f := by
  simp [spliceAt, List.map_take, List.map_drop]

/-- Componentwise description of vector addition. -/
theorem Vec3.add_def (u v : Vec3) : u + v = ⟨u.x + v.x, u.y + v.y, u.z + v.z⟩ := rfl

/-- Componentwise description of vector subtraction. -/
theorem Vec3.sub_def (u v : Vec3) : u - v = ⟨u.x - v.x, u.y - v.y, u.z - v.z⟩ := rfl

/-- Componentwise description of scalar multiplication. -/
theorem Vec3.smul_def (c : ℚ) (v : Vec3) : c • v = ⟨c * v.x, c * v.y, c * v.z⟩ := rfl

/-- The squared norm is nonnegative. -/
theorem Vec3.normSq_nonneg (v : Vec3) : 0 ≤ v.normSq := by
  simp only [Vec3.normSq]
  positivity

/-- Squared distance of a point on a ray from the ray's origin. -/
theorem dist2_add_smul (s v : Vec3) (a : ℚ) :
    dist2 (s + a • v) s = a ^ 2 * v.normSq := by
  simp only [dist2, Vec3.normSq, Vec3.add_def, Vec3.smul_def, Vec3.sub_def]
  ring

/-- Advancing along the ray accumulates the scalar coefficient. -/
theorem add_smul_smul (s v : Vec3) (c dt : ℚ) :
    s + c • v + dt • v = s + (c + dt) • v := by
  simp only [Vec3.add_def, Vec3.smul_def, Vec3.mk.injEq]
  refine ⟨by ring, by ring, by ring⟩

/-- One `speedStep` keeps `currentSpeed` inside
`[maxReverseSpeed, maxForwardSpeed]`. -/
theorem speedStep_bounds (k : Keys) (c : ℚ)
    (h1 : maxReverseSpeed ≤ c) (h2 : c ≤ maxForwardSpeed) :
    maxReverseSpeed ≤ speedStep k c ∧ speedStep k c ≤ maxForwardSpeed := by
  unfold maxReverseSpeed maxForwardSpeed at *
  have hmin : (-3/10 : ℚ) ≤ min (c + speedIncrement) (3/2) ∧
      min (c + speedIncrement) (3/2 : ℚ) ≤ 3/2 := by
    unfold speedIncrement
    exact ⟨le_min (by linarith) (by norm_num), min_le_right _ _⟩
  have hmax : (-3/10 : ℚ) ≤ max (c - speedIncrement) (-3/10) ∧
      max (c - speedIncrement) (-3/10 : ℚ) ≤ 3/2 := by
    unfold speedIncrement
    exact ⟨le_max_right _ _, max_le (by linarith) (by norm_num)⟩
  have hdrag : (-3/10 : ℚ) ≤ (if |c| < 1/100 then (0:ℚ) else c * (998/1000)) ∧
      (if |c| < 1/100 then (0:ℚ) else c * (998/1000)) ≤ 3/2 := by
    split_ifs
    · norm_num
    · constructor <;> nlinarith
  obtain ⟨kw, ka, ks, kd, kf, ksp, kau, kad, kal, kar⟩ := k
  unfold speedStep
  cases kw <;> cases ks <;> cases kau <;> cases kad <;>
    first
      | exact hdrag
      | exact hmin
      | exact hmax

/-- Claim C7: starting from `currentSpeed = 0`, for every sequence of
ticks and every combination of thrust key states, the `currentSpeed`
produced by the speed-update block of `updateShipPhysics` stays within
the closed interval `[maxReverseSpeed, maxForwardSpeed]` = `[-0.3, 1.5]`,
whether a branch clamps an increment, applies the multiplicative `0.998`
drag, or snaps to zero below the epsilon. -/
theorem claim_C7 (ks : List Keys) :
    maxReverseSpeed ≤ ks.foldl (fun c k => speedStep k c) 0 ∧
    ks.foldl (fun c k => speedStep k c) 0 ≤ maxForwardSpeed := by
  suffices h : ∀ c : ℚ, maxReverseSpeed ≤ c → c ≤ maxForwardSpeed →
      maxReverseSpeed ≤ ks.foldl (fun c k => speedStep k c) c ∧
      ks.foldl (fun c k => speedStep k c) c ≤ maxForwardSpeed by
    exact h 0 (by norm_num [maxReverseSpeed]) (by norm_num [maxForwardSpeed])
  induction ks with
  | nil => intro c h1 h2; exact ⟨h1, h2⟩
  | cons k ks ih =>
    intro c h1 h2
    obtain ⟨a, b⟩ := speedStep_bounds k c h1 h2
    exact ih _ a b

/-- Claim C4: while `shipState.invulnerable` is true, no damage-causing
resolution is applied to the ship: `checkCollisions` is a complete
no-op, and the enemy-laser block of `updateShipPhysics` neither reduces
ship health nor removes any projectile by ship contact (it leaves the
world unchanged). -/
theorem claim_C4 (w : World) (h : w.ship.invulnerable = true) :
    checkCollisions w = w ∧ shipLaserPhase w = w := by
  constructor <;> simp [checkCollisions, shipLaserPhase, h]

/-- Witness for C4: an invulnerable ship with an enemy laser resting at
its position and an asteroid collidable overlapping it takes no damage
and removes nothing. -/
theorem claim_C4_witness : checkCollisions c4W = c4W ∧ shipLaserPhase c4W = c4W :=
  claim_C4 c4W (by with_unfolding_all decide)

/-- Claim C6: a player fire request is a complete no-op whenever the
session clock minus `lastShotTime` is below `shootCooldown`; otherwise
it appends exactly one new projectile and sets `lastShotTime` to the
session clock. -/
theorem claim_C6 (nose fdir : Vec3) (w : World) :
    (w.now - w.ship.lastShotTime < shootCooldown → fireLaser nose fdir w = w) ∧
    (¬ w.now - w.ship.lastShotTime < shootCooldown →
      (fireLaser nose fdir w).lasers = w.lasers ++ [mkPlayerLaser nose fdir] ∧
      (fireLaser nose fdir w).lasers.length = w.lasers.length + 1 ∧
      (fireLaser nose fdir w).ship.lastShotTime = w.now) := by
  constructor
  · intro h
    simp [fireLaser, h]
  · intro h
    simp [fireLaser, h]

/-- Witness for C6, the spec scenario: `lastShotTime = 0`, session clock
`0.1`, `shootCooldown = 0.25` — the fire request is rejected and no
projectile is created. -/
theorem claim_C6_witness : fireLaser vzero dirZ c6W = c6W :=
  (claim_C6 vzero dirZ c6W).1 (by with_unfolding_all decide)

/-- Claim C9: with the ship not invulnerable and the first collidable an
asteroid within collision range (`distance < collisionRadius + radius`),
`checkCollisions` resolves exactly that first collision: ship health is
forced to 0 and the game transitions to Over with the asteroid-specific
message. -/
theorem claim_C9 (w : World) (o : Collidable) (rest : List Collidable)
    (hinv : w.ship.invulnerable = false)
    (hobjs : w.collisionObjects = o :: rest)
    (htype : o.ctype = CType.asteroid)
    (hdist : dist2 w.ship.position o.position < (shipCollisionRadius + o.radius) ^ 2) :
    checkCollisions w = handleCollision o w ∧
    (checkCollisions w).ship.health = 0 ∧
    (checkCollisions w).game.isGameOver = true ∧
    (checkCollisions w).game.message = some "Your X-Wing was destroyed by an asteroid!" := by
  have hcc : checkCollisions w = handleCollision o w := by
    unfold checkCollisions
    rw [hinv]
    simp [hobjs, findFirstIdx, hdist]
  refine ⟨hcc, ?_, ?_, ?_⟩ <;> rw [hcc] <;>
    simp [handleCollision, htype, gameOver]

/-- Witness for C9, the spec scenario: ship at distance 3 from an
asteroid of radius 2 with `collisionRadius = 4` — health forced to 0,
game over with the asteroid message. -/
theorem claim_C9_witness :
    checkCollisions c9W = handleCollision c9O c9W ∧
    (checkCollisions c9W).ship.health = 0 ∧
    (checkCollisions c9W).game.isGameOver = true ∧
    (checkCollisions c9W).game.message = some "Your X-Wing was destroyed by an asteroid!" :=
  claim_C9 c9W c9O [] (by with_unfolding_all decide) rfl rfl
    (by with_unfolding_all decide)

/-- Claim C10 (implicit): `createTieFighter` never enters the fighter
into `collisionObjects`, so a ship overlapping an enemy fighter's
collision sphere — with no projectile involved — changes nothing: as
long as no genuine collidable is in range, `checkCollisions` is the
identity no matter where the fighters are. -/
theorem claim_C10 (w : World) (x y z : ℚ) (v : Vec3)
    (hsafe : ∀ o ∈ w.collisionObjects,
      ¬ dist2 w.ship.position o.position < (shipCollisionRadius + o.radius) ^ 2) :
    (createTieFighter x y z v w).collisionObjects = w.collisionObjects ∧
    checkCollisions (createTieFighter x y z v w) = createTieFighter x y z v w := by
  refine ⟨rfl, ?_⟩
  unfold checkCollisions
  have hnone : findFirstIdx
      (fun o => decide (dist2 (createTieFighter x y z v w).ship.position o.position <
        (shipCollisionRadius + o.radius) ^ 2))
      (createTieFighter x y z v w).collisionObjects = none := by
    apply findFirstIdx_eq_none
    intro o ho
    have := hsafe o ho
    simpa using this
  rw [hnone]
  split <;> rfl

/-- Witness for C10: a fighter spawned exactly at the ship's position
(their collision spheres fully overlapping) is not in the collidables
list, and the collision resolver changes nothing. -/
theorem claim_C10_witness :
    (createTieFighter 0 0 0 vzero (initWorld [] [] [] [])).collisionObjects = [] ∧
    checkCollisions (createTieFighter 0 0 0 vzero (initWorld [] [] [] [])) =
      createTieFighter 0 0 0 vzero (initWorld [] [] [] []) :=
  claim_C10 (initWorld [] [] [] []) 0 0 0 vzero (by simp [initWorld])

/-- An `animate()` frame on an already-over game only advances the
session clock. -/
theorem animateTick_over (dt : ℚ) (k : Keys) (hf nose fdir : Vec3)
    (chase jit clampU : ℕ → Vec3) (w : World) (h : w.game.isGameOver = true) :
    animateTick dt k hf nose fdir chase jit clampU w = { w with now := w.now + dt } := by
  simp [animateTick, h]

/-- Claim C1 (amended): once `gameState.isGameOver` is true at the start
of a frame, every subsequent `animate()` frame — hence every invocation
of the physics integrator, enemy AI, projectile system and collision
resolver, all of which run only inside the guarded frame — leaves the
entire simulation state unchanged (only the session clock advances), for
every sequence of ticks and inputs.  The original claim's extension to
the remainder of the tick in which the transition occurs is false: see
the counterexample. -/
theorem claim_C1_amended (w : World) (tis : List TickIn)
    (h : w.game.isGameOver = true) :
    runTicks w tis = { w with now := w.now + sumDt tis } := by
  induction tis generalizing w with
  | nil => simp [runTicks, sumDt]
  | cons ti tis ih =>
    have h1 : runTicks w (ti :: tis) =
        runTicks { w with now := w.now + ti.dt } tis := by
      unfold runTicks
      rw [List.foldl_cons, animateTick_over _ _ _ _ _ _ _ _ _ h]
    rw [h1, ih { w with now := w.now + ti.dt } h]
    simp [sumDt, add_assoc]

/-- Witness for C1: two frames on an already-over world change nothing
but the clock. -/
theorem claim_C1_witness :
    runTicks c1OverW [c1Ti, c1Ti] = { c1OverW with now := c1OverW.now + sumDt [c1Ti, c1Ti] } :=
  claim_C1_amended c1OverW [c1Ti, c1Ti] rfl

/-- Counterexample for C1 as stated: in the world `c1W` the frame's
`updateShipPhysics` call itself performs the Running-to-Over transition
(the ship overlaps an asteroid, `checkCollisions` ends the game), yet
the same frame then invokes the enemy AI — `animate()` only guards the
start of a frame — and that invocation still changes a fighter's
position after the transition. -/
theorem claim_C1_counterexample :
    c1W.game.isGameOver = false ∧
    c1Mid.game.isGameOver = true ∧
    (updateEnemies (1 / 60) ozv ozv ozv c1Mid).targets.map Target.position ≠
      c1Mid.targets.map Target.position := by
  refine ⟨rfl, by with_unfolding_all decide, by with_unfolding_all decide⟩

/-- Claim C8: a live projectile riding its ray (position = start +
`c`·velocity, `c ≥ 0`) has a non-decreasing `distanceTraveled` across
ticks, and on any tick where the advanced distance reaches `maxRange`
the `updateLasers` iteration removes exactly that projectile and touches
nothing else — no hit is registered even if a target lies exactly at the
expiry point, because the range-expiry check precedes the hit tests. -/
theorem claim_C8 (dt c : ℚ) (w : World) (i : ℕ) (laser : Laser)
    (hget : w.lasers[i]? = some laser)
    (hpos : laser.position = laser.startPosition + c • laser.velocity)
    (hc : 0 ≤ c) (hdt : 0 ≤ dt) :
    dist2 laser.position laser.startPosition ≤
      dist2 (laser.position + dt • laser.velocity) laser.startPosition ∧
    (laser.maxDistance ^ 2 ≤ dist2 (laser.position + dt • laser.velocity) laser.startPosition →
      stepLaserAt dt w i = { w with lasers := spliceAt i w.lasers }) := by
  constructor
  · rw [hpos, add_smul_smul, dist2_add_smul, dist2_add_smul]
    have hN := Vec3.normSq_nonneg laser.velocity
    nlinarith [mul_nonneg (mul_nonneg hc hdt) hN, mul_nonneg (mul_nonneg hdt hdt) hN]
  · intro hrange
    simp only [stepLaserAt, hget]
    rw [if_pos (by simpa using hrange)]
    simp [spliceAt_set]

set_option maxRecDepth 4000 in
/-- Witness for C8, the spec scenario: a laser of speed 500 advanced for
`0.4` simulated seconds covers exactly its 200-unit range and is removed
on that tick even though the fighter `c8T` sits exactly at the expiry
point — the world is unchanged except for the removal (in particular the
fighter keeps its health). -/
theorem claim_C8_witness :
    stepLaserAt (2 / 5) c8W 0 = { c8W with lasers := spliceAt 0 c8W.lasers } :=
  (claim_C8 (2 / 5) 0 c8W 0 c8L (by with_unfolding_all decide)
    (by with_unfolding_all decide) (by norm_num) (by norm_num)).2
    (by with_unfolding_all decide)

/-- Claim C2 as run on the code (the claim fails; the code contradicts
its own `break; // Laser can only hit one target` intent): in `c2W` the
laser `c2L0` is, after one advance, within both the fighter's and the
asteroid's radius while `c2L1` is far from everything; the claim says
exactly one entity is damaged and exactly one projectile (`c2L0`) is
removed, but the tick damages the fighter, still runs the asteroid
branch for the already-removed laser (second explosion and a destroy
roll), and the repeated `splice` at the same index also deletes the
unrelated projectile `c2L1` — both lasers are gone. -/
theorem claim_C2_bug :
    c2W.lasers.length = 2 ∧
    (updateLasers (1 / 500) c2W).lasers = [] ∧
    (updateLasers (1 / 500) c2W).targets.map Target.health = [25] ∧
    (updateLasers (1 / 500) c2W).explosions.length = 2 ∧
    (updateLasers (1 / 500) c2W).asteroids.length = 1 := by
  refine ⟨rfl, ?_, ?_, ?_, ?_⟩ <;> with_unfolding_all decide

/-- Counterexample for C3: the `isEnemy`-tagged laser `c3E` lies within
the fighter `c2F`'s radius after one advance, and `updateLasers` reduces
the fighter's health from 50 to 40 — enemy-owned projectiles are not
hit-tested only against the player ship. -/
theorem claim_C3_counterexample :
    c3E.isEnemy = true ∧
    c3W.targets.map Target.health = [50] ∧
    (updateLasers 1 c3W).targets.map Target.health = [40] := by
  refine ⟨rfl, rfl, ?_⟩
  with_unfolding_all decide

/-- The fighter block of a laser iteration never reads the ownership
tag: it commutes with erasing the tags of the laser list. -/
theorem laserTargetPhase_strip (l : Laser) (i : ℕ) (w : World) :
    laserTargetPhase (stripLaser l) i (stripWorld w) = stripWorld (laserTargetPhase l i w) := by
  unfold laserTargetPhase
  cases hj : findLastIdx (fun t => decide (dist2 l.position t.position < t.radius ^ 2)) w.targets with
  | none => simp [stripWorld, stripLaser, hj]
  | some j =>
    cases ht : w.targets[j]? with
    | none => simp [stripWorld, stripLaser, hj, ht]
    | some t =>
      simp only [stripWorld, stripLaser] at *
      simp only [hj, ht]
      split_ifs <;> simp [spliceAt_map]

/-- The asteroid block of a laser iteration never reads the ownership
tag either. -/
theorem laserAsteroidPhase_strip (l : Laser) (i : ℕ) (w : World) :
    laserAsteroidPhase (stripLaser l) i (stripWorld w) = stripWorld (laserAsteroidPhase l i w) := by
  unfold laserAsteroidPhase
  cases hj : findFirstIdx (fun a => decide (dist2 l.position a.position < a.radius ^ 2)) w.asteroids with
  | none => simp [stripWorld, stripLaser, hj]
  | some j =>
    cases ha : w.asteroids[j]? with
    | none => simp [stripWorld, stripLaser, hj, ha]
    | some a =>
      simp only [stripWorld, stripLaser] at *
      simp only [hj, ha]
      split_ifs <;> simp [spliceAt_map]

/-- One full `updateLasers` iteration commutes with erasing the
ownership tags. -/
theorem stepLaserAt_strip (dt : ℚ) (w : World) (i : ℕ) :
    stepLaserAt dt (stripWorld w) i = stripWorld (stepLaserAt dt w i) := by
  unfold stepLaserAt
  cases hget : w.lasers[i]? with
  | none =>
    have h2 : (stripWorld w).lasers[i]? = none := by
      simp [stripWorld, List.getElem?_map, hget]
    simp [h2, hget]
  | some laser =>
    have h2 : (stripWorld w).lasers[i]? = some (stripLaser laser) := by
      simp [stripWorld, List.getElem?_map, hget]
    simp only [h2, hget]
    dsimp only [stripLaser]
    split_ifs with hcond
    · simp [spliceAt_set, spliceAt_map, stripWorld]
    · have hset : (stripWorld w).lasers.set i
          { position := laser.position + dt • laser.velocity, velocity := laser.velocity,
            startPosition := laser.startPosition, maxDistance := laser.maxDistance,
            damage := laser.damage, isEnemy := false } =
          (w.lasers.set i { laser with position := laser.position + dt • laser.velocity }).map stripLaser := by
        simp [stripWorld, List.map_set, stripLaser]
      rw [hset]
      show laserAsteroidPhase
          (stripLaser { laser with position := laser.position + dt • laser.velocity }) i
          (laserTargetPhase
            (stripLaser { laser with position := laser.position + dt • laser.velocity }) i
            (stripWorld { w with lasers := w.lasers.set i { laser with position := laser.position + dt • laser.velocity } })) =
          stripWorld (laserAsteroidPhase
            { laser with position := laser.position + dt • laser.velocity } i
            (laserTargetPhase { laser with position := laser.position + dt • laser.velocity } i
              { w with lasers := w.lasers.set i { laser with position := laser.position + dt • laser.velocity } }))
      rw [laserTargetPhase_strip, laserAsteroidPhase_strip]

/-- The `updateLasers` loop commutes with erasing the ownership tags. -/
theorem updateLasersLoop_strip (dt : ℚ) :
    ∀ (n : ℕ) (w : World),
      updateLasersLoop dt n (stripWorld w) = stripWorld (updateLasersLoop dt n w)
  | 0, _ => rfl
  | n + 1, w => by
    rw [updateLasersLoop, updateLasersLoop, stepLaserAt_strip,
      updateLasersLoop_strip dt n]

/-- `updateLasers` commutes with erasing the ownership tags. -/
theorem updateLasers_strip (dt : ℚ) (w : World) :
    updateLasers dt (stripWorld w) = stripWorld (updateLasers dt w) := by
  unfold updateLasers
  have hlen : (stripWorld w).lasers.length = w.lasers.length := by
    simp [stripWorld]
  rw [hlen, updateLasersLoop_strip]

/-- Claim C3 (amended): `updateLasers` hit-tests every projectile,
enemy-owned included, exactly like a player projectile — it never
consults the `isEnemy` tag, so replacing every tag by the player value
changes nothing about the tick's effect.  Only the player-ship hit test
(the enemy-laser block of `updateShipPhysics`) is ownership-restricted:
on a world whose lasers are all player-owned it is the identity. -/
theorem claim_C3_amended :
    (∀ (dt : ℚ) (w : World), updateLasers dt (stripWorld w) = stripWorld (updateLasers dt w)) ∧
    (∀ w : World, (∀ l ∈ w.lasers, l.isEnemy = false) → shipLaserPhase w = w) := by
  constructor
  · exact updateLasers_strip
  · intro w h
    unfold shipLaserPhase
    split_ifs with hinv
    · rfl
    · rw [findLastIdx_eq_none]
      intro l hl
      simp [h l hl]

/-- Witness for the amended C3: a player-owned laser resting exactly at
the ship's position is never resolved against the ship. -/
theorem claim_C3_witness : shipLaserPhase c3PW = c3PW :=
  claim_C3_amended.2 c3PW (by with_unfolding_all decide)

/-- Worlds agreeing on the invulnerability flag, the roll activity and the pending timeouts satisfy `invGuard` together. -/
theorem invGuard_of_eq {w w' : World}
    (h1 : w'.ship.invulnerable = w.ship.invulnerable)
    (h2 : w'.ship.barrelRoll.active = w.ship.barrelRoll.active)
    (h3 : w'.pendingGrace = w.pendingGrace)
    (h : invGuard w) : invGuard w' := by
  intro hi
  rw [h2, h3]
  exact h (h1 ▸ hi)

/-- The fighter block of a laser iteration never touches the ship state or the pending timeouts. -/
theorem laserTargetPhase_core (l : Laser) (i : ℕ) (w : World) :
    (laserTargetPhase l i w).ship = w.ship ∧
    (laserTargetPhase l i w).pendingGrace = w.pendingGrace := by
  unfold laserTargetPhase
  constructor <;> (repeat' split) <;> (try (dsimp only; repeat' split)) <;> rfl

/-- The asteroid block of a laser iteration never touches the ship state or the pending timeouts. -/
theorem laserAsteroidPhase_core (l : Laser) (i : ℕ) (w : World) :
    (laserAsteroidPhase l i w).ship = w.ship ∧
    (laserAsteroidPhase l i w).pendingGrace = w.pendingGrace := by
  unfold laserAsteroidPhase
  constructor <;> (repeat' split) <;> (try (dsimp only; repeat' split)) <;> rfl

/-- One `updateLasers` iteration never touches the ship state or the pending timeouts. -/
theorem stepLaserAt_core (dt : ℚ) (w : World) (i : ℕ) :
    (stepLaserAt dt w i).ship = w.ship ∧
    (stepLaserAt dt w i).pendingGrace = w.pendingGrace := by
  unfold stepLaserAt
  cases hget : w.lasers[i]? with
  | none => exact ⟨rfl, rfl⟩
  | some laser =>
    dsimp only
    split_ifs with hcond
    · exact ⟨rfl, rfl⟩
    · have hA := laserAsteroidPhase_core
        { laser with position := laser.position + dt • laser.velocity } i
        (laserTargetPhase { laser with position := laser.position + dt • laser.velocity } i
          { w with lasers := w.lasers.set i { laser with position := laser.position + dt • laser.velocity } })
      have hT := laserTargetPhase_core
        { laser with position := laser.position + dt • laser.velocity } i
        { w with lasers := w.lasers.set i { laser with position := laser.position + dt • laser.velocity } }
      exact ⟨hA.1.trans hT.1, hA.2.trans hT.2⟩

/-- The whole `updateLasers` loop never touches the ship state or the pending timeouts. -/
theorem updateLasersLoop_core (dt : ℚ) :
    ∀ (n : ℕ) (w : World),
      (updateLasersLoop dt n w).ship = w.ship ∧
      (updateLasersLoop dt n w).pendingGrace = w.pendingGrace
  | 0, _ => ⟨rfl, rfl⟩
  | n + 1, w => by
    rw [updateLasersLoop]
    have h1 := updateLasersLoop_core dt n (stepLaserAt dt w n)
    have h2 := stepLaserAt_core dt w n
    exact ⟨h1.1.trans h2.1, h1.2.trans h2.2⟩

/-- The collision resolver never touches the invulnerability flag, the barrel roll or the pending timeouts (it only writes health and game state). -/
theorem checkCollisions_core (w : World) :
    (checkCollisions w).ship.invulnerable = w.ship.invulnerable ∧
    (checkCollisions w).ship.barrelRoll = w.ship.barrelRoll ∧
    (checkCollisions w).pendingGrace = w.pendingGrace := by
  unfold checkCollisions handleCollision gameOver
  refine ⟨?_, ?_, ?_⟩ <;> (repeat' split) <;> rfl

/-- Firing never touches the invulnerability flag, the barrel roll or the pending timeouts. -/
theorem fireLaser_core (nose fdir : Vec3) (w : World) :
    (fireLaser nose fdir w).ship.invulnerable = w.ship.invulnerable ∧
    (fireLaser nose fdir w).ship.barrelRoll = w.ship.barrelRoll ∧
    (fireLaser nose fdir w).pendingGrace = w.pendingGrace := by
  unfold fireLaser
  refine ⟨?_, ?_, ?_⟩ <;> (repeat' split) <;> rfl

/-- The barrel-roll update preserves `invGuard`: completing a roll clears invulnerability, and an unfinished roll keeps `active` set. -/
theorem invGuard_updateBarrelRoll (w : World) (h : invGuard w) :
    invGuard (updateBarrelRoll w) := by
  unfold updateBarrelRoll
  dsimp only
  split_ifs with ha hc
  · intro hi
    simp at hi
  · intro _
    left
    exact ha
  · exact h

/-- The enemy-laser block preserves `invGuard`: a resolved hit sets invulnerability but also schedules a grace timeout. -/
theorem invGuard_shipLaserPhase (w : World) (h : invGuard w) :
    invGuard (shipLaserPhase w) := by
  unfold shipLaserPhase
  split_ifs with hinv
  · exact h
  · cases hj : findLastIdx
        (fun l => l.isEnemy &&
          decide (dist2 l.position w.ship.position < shipCollisionRadius ^ 2)) w.lasers with
    | none => exact h
    | some j =>
      dsimp only
      cases hl : w.lasers[j]? with
      | none => exact h
      | some l =>
        dsimp only
        split_ifs with hh
        · unfold invGuard gameOver
          intro _
          right
          simp
        · unfold invGuard
          intro _
          right
          simp

/-- The collision resolver preserves `invGuard`. -/
theorem invGuard_checkCollisions (w : World) (h : invGuard w) :
    invGuard (checkCollisions w) := by
  have hc := checkCollisions_core w
  exact invGuard_of_eq hc.1 (congrArg BarrelRoll.active hc.2.1) hc.2.2 h

/-- Firing preserves `invGuard`. -/
theorem invGuard_fireLaser (nose fdir : Vec3) (w : World) (h : invGuard w) :
    invGuard (fireLaser nose fdir w) := by
  have hc := fireLaser_core nose fdir w
  exact invGuard_of_eq hc.1 (congrArg BarrelRoll.active hc.2.1) hc.2.2 h

/-- The conditional continuous-fire step preserves `invGuard`. -/
theorem invGuard_ite_fire (nose fdir : Vec3) (b : Bool) (w1 : World)
    (h : invGuard w1) : invGuard (if b = true then fireLaser nose fdir w1 else w1) := by
  cases b
  · simpa using h
  · simpa using invGuard_fireLaser nose fdir w1 h

/-- `updateShipPhysics` preserves `invGuard`. -/
theorem invGuard_tickPhysics (k : Keys) (hf nose fdir : Vec3) (w : World)
    (h : invGuard w) : invGuard (tickPhysics k hf nose fdir w) := by
  unfold tickPhysics
  dsimp only
  apply invGuard_shipLaserPhase
  apply invGuard_checkCollisions
  apply invGuard_updateBarrelRoll
  apply invGuard_ite_fire
  exact invGuard_of_eq rfl rfl rfl h

/-- A whole `animate()` frame preserves `invGuard`. -/
theorem invGuard_animateTick (dt : ℚ) (k : Keys) (hf nose fdir : Vec3)
    (chase jit clampU : ℕ → Vec3) (w : World) (h : invGuard w) :
    invGuard (animateTick dt k hf nose fdir chase jit clampU w) := by
  unfold animateTick
  dsimp only
  split_ifs with hover
  · exact invGuard_of_eq rfl rfl rfl h
  · have hbase : invGuard
        (updateEnemies dt chase jit clampU
          (tickPhysics k hf nose fdir { w with now := w.now + dt })) := by
      apply invGuard_of_eq rfl rfl rfl
      exact invGuard_tickPhysics k hf nose fdir _ (invGuard_of_eq rfl rfl rfl h)
    have hc := updateLasersLoop_core dt
      (updateEnemies dt chase jit clampU
        (tickPhysics k hf nose fdir { w with now := w.now + dt })).lasers.length
      (updateEnemies dt chase jit clampU
        (tickPhysics k hf nose fdir { w with now := w.now + dt }))
    exact invGuard_of_eq (congrArg ShipState.invulnerable hc.1)
      (congrArg (fun s => s.barrelRoll.active) hc.1) hc.2 hbase

/-- Every event preserves `invGuard`; in particular a roll start sets `active` and a timeout expiry clears invulnerability. -/
theorem invGuard_stepEv (w : World) (e : Ev) (h : invGuard w) :
    invGuard (stepEv w e) := by
  cases e with
  | tick dt k hf nose fdir chase jit clampU =>
    exact invGuard_animateTick dt k hf nose fdir chase jit clampU w h
  | keyRoll dir =>
    unfold stepEv
    split_ifs with ha
    · exact h
    · unfold startBarrelRoll invGuard
      intro _
      left
      rfl
  | keyFire nose fdir => exact invGuard_fireLaser nose fdir w h
  | graceFire i =>
    unfold stepEv
    dsimp only
    cases hg : w.pendingGrace[i]? with
    | none => exact h
    | some texp =>
      dsimp only
      split_ifs with ht
      · intro hi
        simp at hi
      · exact h
  | enemyFire origin u =>
    unfold stepEv createEnemyLaser
    exact invGuard_of_eq rfl rfl rfl h

/-- Any event sequence preserves `invGuard`. -/
theorem invGuard_runEv (w : World) (evs : List Ev) (h : invGuard w) :
    invGuard (runEv w evs) := by
  induction evs generalizing w with
  | nil => exact h
  | cons e evs ih =>
    unfold runEv at *
    rw [List.foldl_cons]
    exact ih (stepEv w e) (invGuard_stepEv w e h)

/-- Claim C5 (amended): in every state reachable from the initial world, `invulnerable = true` implies that a barrel roll is active or a post-hit grace timeout is pending — this is the direction of the claimed iff that holds.  The converse fails: the 1-second `setTimeout` scheduled by an enemy-laser hit clears `invulnerable` when it fires even while a barrel roll is still active, so after a hit followed by a roll, invulnerability does not last the remaining duration of the roll (see the counterexample). -/
theorem claim_C5_amended (cobjs : List Collidable) (ts : List Target)
    (asts : List Asteroid) (tape : List Bool) (evs : List Ev)
    (h : (runEv (initWorld cobjs ts asts tape) evs).ship.invulnerable = true) :
    (runEv (initWorld cobjs ts asts tape) evs).ship.barrelRoll.active = true ∨
    (runEv (initWorld cobjs ts asts tape) evs).pendingGrace ≠ [] := by
  have hinit : invGuard (initWorld cobjs ts asts tape) := by
    intro hi
    simp [initWorld, initShip] at hi
  exact invGuard_runEv _ evs hinit h

/-- Witness for the amended C5: right after the enemy-laser hit of the trace `c5evs`, the ship is invulnerable and indeed a grace timeout is pending. -/
theorem claim_C5_witness :
    (runEv (initWorld [] [] [] []) (c5evs.take 2)).ship.barrelRoll.active = true ∨
    (runEv (initWorld [] [] [] []) (c5evs.take 2)).pendingGrace ≠ [] :=
  claim_C5_amended [] [] [] [] (c5evs.take 2) (by with_unfolding_all decide)

/-- Counterexample for C5 as stated: running the trace `c5evs` from the initial world — an enemy-laser hit, then a barrel-roll start before the grace timeout expires, then the timeout firing mid-roll — ends in a state with the barrel roll still active, no pending timeout, and `invulnerable = false`, refuting both the claimed iff and the claim that invulnerability persists for the whole remaining duration of the roll. -/
theorem claim_C5_counterexample :
    c5S.ship.barrelRoll.active = true ∧
    c5S.ship.invulnerable = false ∧
    c5S.pendingGrace = [] := by
  refine ⟨?_, ?_, ?_⟩ <;> with_unfolding_all decide
